import Mathlib

/-!
Verification of the spinner program (src/spinner.ts).

The program animates a single terminal cell with the 256 braille glyphs,
coordinating shutdown between an animation loop and a controller through a
shared cancelled flag and a one-shot Deferred (the Completion Signal).

This file shallowly embeds the program:
  * bytes are Nat (< 256), byte sequences are List Nat;
  * TextEncoder.encode is the standard UTF-8 encoding of Unicode scalar
    values (utf8Encode / encodeString);
  * the Deferred class is a structure holding its two flags and the
    first-settlement outcome of the underlying promise;
  * the animation loop (spinInternal) is a small-step machine over a
    SpinState; the controller step (cancel) is a state transformer.
-/

set_option maxRecDepth 10000

/-- Settlements of a promise of void compare decidably. -/
instance : DecidableEq (Except String Unit) := fun a b =>
  match a, b with
  | Except.ok (), Except.ok () => isTrue rfl
  | Except.error x, Except.error y =>
      if h : x = y then isTrue (by rw [h])
      else isFalse (fun hh => h (by cases hh; rfl))
  | Except.ok _, Except.error _ => isFalse (fun hh => Except.noConfusion hh)
  | Except.error _, Except.ok _ => isFalse (fun hh => Except.noConfusion hh)

/-- UTF-8 encoding of a Unicode scalar value, one code point to its byte
sequence.  This is what TextEncoder.encode does per code point. -/
def utf8Encode (c : Nat) : List Nat :=
  if c < 0x80 then [c]
  else if c < 0x800 then [0xC0 + c / 0x40, 0x80 + c % 0x40]
  else if c < 0x10000 then
    [0xE0 + c / 0x1000, 0x80 + c / 0x40 % 0x40, 0x80 + c % 0x40]
  else
    [0xF0 + c / 0x40000, 0x80 + c / 0x1000 % 0x40, 0x80 + c / 0x40 % 0x40,
     0x80 + c % 0x40]

/-- TextEncoder.encode on a whole string, the string given as its list of
code points. -/
def encodeString (cps : List Nat) : List Nat :=
  (cps.map utf8Encode).flatten

/-- Code points of the source string ANSI_CURSOR_LEFT = "\x1b[1D". -/
def ANSI_CURSOR_LEFT : List Nat := [0x1b, 0x5b, 0x31, 0x44]

/-- Code points of the source string ANSI_CURSOR_HIDE = "\x1b[?25l". -/
def ANSI_CURSOR_HIDE : List Nat := [0x1b, 0x5b, 0x3f, 0x32, 0x35, 0x6c]

/-- Code points of the source string ANSI_CURSOR_SHOW = "\x1b[?25h". -/
def ANSI_CURSOR_SHOW : List Nat := [0x1b, 0x5b, 0x3f, 0x32, 0x35, 0x68]

/-- Code points of the source string "Working... " written by main. -/
def WORKING_TEXT : List Nat := [87, 111, 114, 107, 105, 110, 103, 46, 46, 46, 32]

/-- ALL_BRAILLE_CHARS: Array.from with length 0x28FF - 0x2800 + 1,
element i being the code point 0x2800 + i. -/
def ALL_BRAILLE_CHARS : List Nat :=
  (List.range (0x28FF - 0x2800 + 1)).map (fun i => 0x2800 + i)

/-- encode(char): TextEncoder.encode of [ANSI_CURSOR_LEFT, char].join(""). -/
def encode (char : Nat) : List Nat :=
  encodeString (ANSI_CURSOR_LEFT ++ [char])

/-- ALL_BRAILLE_FRAMES = ALL_BRAILLE_CHARS.map(encode). -/
def ALL_BRAILLE_FRAMES : List (List Nat) :=
  ALL_BRAILLE_CHARS.map encode

/-- The Deferred class: the two status flags and the settlement of the
underlying promise.  The promise settles at most once, so outcome records
the first resolve/reject and nothing after it; the flags are plain fields
set by resolve and reject.  Deferred of void with unknown reasons is
modelled with value type Unit and reason type String. -/
structure Deferred where
  _isResolved : Bool
  _isRejected : Bool
  outcome : Option (Except String Unit)
deriving DecidableEq, Repr

/-- new Deferred(): flags false, promise pending. -/
def Deferred.new : Deferred := ⟨false, false, none⟩

/-- The isResolved getter. -/
def Deferred.isResolved (d : Deferred) : Bool := d._isResolved

/-- The isRejected getter. -/
def Deferred.isRejected (d : Deferred) : Bool := d._isRejected

/-- The isDone getter: this._isResolved || this._isRejected. -/
def Deferred.isDone (d : Deferred) : Bool := d._isResolved || d._isRejected

/-- The wrapped resolve: sets _isResolved = true and calls the promise
resolver, which fulfills the promise only if it is still pending. -/
def Deferred.resolve (d : Deferred) : Deferred :=
  { d with _isResolved := true,
           outcome := match d.outcome with
                      | none => some (Except.ok ())
                      | some o => some o }

/-- The wrapped reject: sets _isRejected = true and calls the promise
rejecter, which rejects the promise only if it is still pending. -/
def Deferred.reject (d : Deferred) (reason : String) : Deferred :=
  { d with _isRejected := true,
           outcome := match d.outcome with
                      | none => some (Except.error reason)
                      | some o => some o }

/-- One call against a Deferred: resolve() or reject(reason). -/
inductive DOp where
  | res : DOp
  | rej : String → DOp
deriving DecidableEq, Repr

/-- Apply one resolve/reject call. -/
def Deferred.applyOp (d : Deferred) : DOp → Deferred
  | DOp.res => d.resolve
  | DOp.rej e => d.reject e

/-- Apply a sequence of resolve/reject calls, oldest first. -/
def Deferred.runOps (d : Deferred) : List DOp → Deferred
  | [] => d
  | op :: ops => (d.applyOp op).runOps ops

/-- A write to the sink (Deno.stderr), identified by what the program
writes there; bytesOf gives each event its byte sequence. -/
inductive Ev where
  | hide : Ev
  | frame : Nat → Ev
  | cleanup : Ev
  | showCursor : Ev
  | working : Ev
deriving DecidableEq, Repr

/-- The bytes each sink write carries. -/
def bytesOf : Ev → List Nat
  | Ev.hide => encodeString ANSI_CURSOR_HIDE
  | Ev.frame k => ALL_BRAILLE_FRAMES.getD k []
  | Ev.cleanup =>
      encodeString (ANSI_CURSOR_LEFT ++ [0x20] ++ ANSI_CURSOR_LEFT ++ ANSI_CURSOR_SHOW)
  | Ev.showCursor => encodeString ANSI_CURSOR_SHOW
  | Ev.working => encodeString WORKING_TEXT

/-- Program counter of the spinInternal coroutine.  Each constructor is a
point of its control flow: about to write the hide-cursor sequence; at the
while (!cancelled) test; at the `if (cancelled) break` test before frame k;
sleeping after writing frame k; about to run `throw new Error("test")`
after the sleep; returned, with the result of the async function. -/
inductive Phase where
  | start : Phase
  | checkWhile : Phase
  | checkFor : Nat → Phase
  | sleeping : Nat → Phase
  | throwing : Nat → Phase
  | finished : Except String Unit → Phase
deriving DecidableEq, Repr

/-- The shared state of one spin(ms) call: the interval, the cancelled
flag, the done Deferred, the ordered writes issued to the sink so far, and
the loop coroutine's program counter. -/
structure SpinState where
  ms : Nat
  cancelled : Bool
  done : Deferred
  sink : List Ev
  phase : Phase
deriving DecidableEq, Repr

/-- internalPromise.then(done.resolve, done.resolve): when spinInternal
settles with result r, both the fulfillment handler and the rejection
handler are done.resolve. -/
def settleDone (d : Deferred) (r : Except String Unit) : Deferred :=
  match r with
  | Except.ok _ => d.resolve
  | Except.error _ => d.resolve

/-- State right after spin(ms) returns: flag false, fresh Deferred, no
writes yet, loop at its first statement.  The missing argument takes the
declared default, ms = 500. -/
def spinInit (ms : Option Nat) : SpinState :=
  { ms := ms.getD 500
    cancelled := false
    done := Deferred.new
    sink := []
    phase := Phase.start }

/-- One step of the spinInternal coroutine, none once it has returned.
Control flow of the source: write hide-cursor; while (!cancelled) { for
frame: if (cancelled) break; write frame; sleep(ms); throw Error("test") }.
The check before a frame and the start of that frame's write are one step:
no await separates them in the source.  The transition into `finished`
also fires the then-handlers registered on internalPromise (settleDone). -/
def loopNext (s : SpinState) : Option SpinState :=
  match s.phase with
  | Phase.start =>
      some { s with sink := s.sink ++ [Ev.hide], phase := Phase.checkWhile }
  | Phase.checkWhile =>
      if s.cancelled then
        some { s with phase := Phase.finished (Except.ok ())
                      done := settleDone s.done (Except.ok ()) }
      else
        some { s with phase := Phase.checkFor 0 }
  | Phase.checkFor k =>
      if s.cancelled then
        some { s with phase := Phase.checkWhile }
      else if k < ALL_BRAILLE_FRAMES.length then
        some { s with sink := s.sink ++ [Ev.frame k], phase := Phase.sleeping k }
      else
        some { s with phase := Phase.checkWhile }
  | Phase.sleeping k =>
      some { s with phase := Phase.throwing k }
  | Phase.throwing _ =>
      some { s with phase := Phase.finished (Except.error "test")
                    done := settleDone s.done (Except.error "test") }
  | Phase.finished _ => none

/-- The loop step as a total function, stationary once the loop returned. -/
def loopStepTotal (s : SpinState) : SpinState :=
  (loopNext s).getD s

/-- A statement executed by the cancel function, in order. -/
inductive CancelAct where
  | setFlag : CancelAct
  | writeSink : List Nat → CancelAct
  | resolveDone : CancelAct
  | awaitDone : CancelAct
deriving DecidableEq, Repr

/-- The cancel function: cancelled = true; await write of
[LEFT, " ", LEFT, SHOW].join(""); done.resolve(); await done.promise.
Returns the state after the call together with the statements it ran. -/
def cancelRun (s : SpinState) : SpinState × List CancelAct :=
  ( { s with cancelled := true
             sink := s.sink ++ [Ev.cleanup]
             done := s.done.resolve }
  , [CancelAct.setFlag, CancelAct.writeSink (bytesOf Ev.cleanup),
     CancelAct.resolveDone, CancelAct.awaitDone] )

/-- What a cancel call on state s returns: it awaits done.promise, so it
yields the settled outcome of the Deferred after its own resolve. -/
def cancelOutcome (s : SpinState) : Option (Except String Unit) :=
  ((cancelRun s).1).done.outcome

/-- Interleaving labels: a step of the loop coroutine, or the controller
calling cancel. -/
inductive Label where
  | loopStep : Label
  | cancelStep : Label
deriving DecidableEq, Repr

/-- Interleaved execution: at any state, either the loop advances one step
or the controller runs cancel. -/
inductive Step : SpinState → Label → SpinState → Prop
  | loop {s t : SpinState} : loopNext s = some t → Step s Label.loopStep t
  | cancel (s : SpinState) : Step s Label.cancelStep (cancelRun s).1

/-- Some interleaved step, any label. -/
def StepAny (s t : SpinState) : Prop := ∃ l, Step s l t

/-- try/finally over a sink-writing body: the finally writes run whether
the body returned or threw, and the body's outcome is then propagated. -/
def tryFinallyEv (body : List Ev × Except String Unit) (fin : List Ev) :
    List Ev × Except String Unit :=
  (body.1 ++ fin, body.2)

/-- The main function, its try block abstracted as the writes it issued
and its outcome: write "Working... "; try { ... } finally
{ Deno.stderr.write(ANSI_CURSOR_SHOW) }. -/
def mainRun (body : List Ev × Except String Unit) : List Ev × Except String Unit :=
  let tf := tryFinallyEv body [Ev.showCursor]
  (Ev.working :: tf.1, tf.2)

/-- A statement executed by waitForKeypress, in order. -/
inductive KAct where
  | setRaw : Bool → KAct
  | readByte : KAct
deriving DecidableEq, Repr

/-- waitForKeypress, the single-byte read's outcome abstracted as
readResult: try { setRaw(true); await read } finally { setRaw(false) };
the finally runs and then the read's outcome is propagated. -/
def waitForKeypress (readResult : Except String Unit) :
    List KAct × Except String Unit :=
  match readResult with
  | Except.ok _ =>
      ([KAct.setRaw true, KAct.readByte, KAct.setRaw false], readResult)
  | Except.error e =>
      ([KAct.setRaw true, KAct.readByte, KAct.setRaw false], Except.error e)



/-- C9: spin called with no interval argument uses the declared default of
500 milliseconds between frames. -/
theorem spin_default_interval :
    (spinInit none).ms = 500 ∧ (spinInit (some 250)).ms = 250 :=
  ⟨rfl, rfl⟩

/-- C10: waitForKeypress toggles raw mode around the single-byte read
inside try/finally, so setRaw(false) is the last action it runs, and the
read result (success or failure) is what it returns or propagates. -/
theorem waitForKeypress_restores_raw_mode (r : Except String Unit) :
    (waitForKeypress r).1.getLast? = some (KAct.setRaw false)
    ∧ (waitForKeypress r).1.head? = some (KAct.setRaw true)
    ∧ KAct.readByte ∈ (waitForKeypress r).1
    ∧ (waitForKeypress r).2 = r := by
  cases r with
  | ok v => exact ⟨rfl, rfl, by simp [waitForKeypress], rfl⟩
  | error e => exact ⟨rfl, rfl, by simp [waitForKeypress], rfl⟩

/-- Witness for waitForKeypress_restores_raw_mode at a throwing read. -/
theorem waitForKeypress_restores_raw_mode_witness :
    (waitForKeypress (Except.error "boom")).1.getLast? = some (KAct.setRaw false)
    ∧ (waitForKeypress (Except.error "boom")).1.head? = some (KAct.setRaw true)
    ∧ KAct.readByte ∈ (waitForKeypress (Except.error "boom")).1
    ∧ (waitForKeypress (Except.error "boom")).2 = Except.error "boom" :=
  waitForKeypress_restores_raw_mode (Except.error "boom")

/-- C4 (code bug in the source): run the animation loop from spin(500)
with the cancelled flag never set.  After five steps the loop has written
only the hide-cursor sequence and frame 0, has hit the unconditional
throw new Error("test"), and is permanently finished with that failure;
the remaining 255 frames are never written and the cycle never repeats,
although cancel was never called. -/
theorem spin_loop_throws_after_first_frame :
    (loopStepTotal^[5] (spinInit (some 500))).sink = [Ev.hide, Ev.frame 0]
    ∧ (loopStepTotal^[5] (spinInit (some 500))).phase
        = Phase.finished (Except.error "test")
    ∧ loopStepTotal (loopStepTotal^[5] (spinInit (some 500)))
        = loopStepTotal^[5] (spinInit (some 500))
    ∧ (loopStepTotal^[5] (spinInit (some 500))).cancelled = false := by
  decide

/-- C1 counterexample: in that same run, where the loop itself failed with
Error("test") and stop was never called, the Completion Signal does not
end rejected: internalPromise.then(done.resolve, done.resolve) routes the
failure into resolve, so done is fulfilled with success. -/
theorem spin_loop_failure_not_rejected_cex :
    (loopStepTotal^[5] (spinInit (some 500))).phase
        = Phase.finished (Except.error "test")
    ∧ (loopStepTotal^[5] (spinInit (some 500))).done.isRejected = false
    ∧ (loopStepTotal^[5] (spinInit (some 500))).done.outcome
        = some (Except.ok ())
    ∧ (loopStepTotal^[5] (spinInit (some 500))).done.isResolved = true := by
  decide

/-- C1 (amended): when the animation loop fails, the rejection handler on
internalPromise is done.resolve, so the Completion Signal is fulfilled,
not rejected: done yields success even though the loop failed before stop
was ever called, and the loop of this program does fail. -/
theorem spin_loop_failure_converted_to_success (d : Deferred) (e : String)
    (h : d.outcome = none) :
    (settleDone d (Except.error e)).outcome = some (Except.ok ())
    ∧ (settleDone d (Except.error e)).isResolved = true
    ∧ (settleDone d (Except.error e)).isRejected = d.isRejected
    ∧ (loopStepTotal^[5] (spinInit (some 500))).phase
        = Phase.finished (Except.error "test") := by
  refine ⟨?_, rfl, rfl, by decide⟩
  simp [settleDone, Deferred.resolve, h]

/-- Witness for spin_loop_failure_converted_to_success on a fresh
Deferred. -/
theorem spin_loop_failure_converted_to_success_witness :
    (settleDone Deferred.new (Except.error "test")).outcome
        = some (Except.ok ())
    ∧ (settleDone Deferred.new (Except.error "test")).isResolved = true :=
  ⟨(spin_loop_failure_converted_to_success Deferred.new "test" rfl).1,
   (spin_loop_failure_converted_to_success Deferred.new "test" rfl).2.1⟩

/-- C2 counterexample: resolve() then reject() on one Deferred.  The
reject attempt after settlement is not a no-op on the observable state:
it flips isRejected from false to true, and the signal is then observed
as both fulfilled and rejected. -/
theorem deferred_double_settle_flags_cex :
    (Deferred.new.resolve).isRejected = false
    ∧ ((Deferred.new.resolve).reject "boom").isRejected = true
    ∧ ((Deferred.new.resolve).reject "boom").isResolved = true
    ∧ ((Deferred.new.resolve).reject "boom").outcome = some (Except.ok ()) := by
  decide

/-- C2 (amended): the underlying promise settles at most once: once the
outcome is fixed, no further sequence of resolve/reject calls changes it.
The query flags, however, are set unconditionally by every call: reject
always sets isRejected and resolve always sets isResolved, so a late
reject after a fulfill leaves the signal observable as both. -/
theorem deferred_settles_once_flags_unguarded (d : Deferred)
    (o : Except String Unit) (ops : List DOp) (h : d.outcome = some o) :
    (d.runOps ops).outcome = some o
    ∧ (∀ e, (d.reject e).isRejected = true)
    ∧ (d.resolve).isResolved = true := by
  have main : ∀ (ops : List DOp) (d : Deferred), d.outcome = some o →
      (d.runOps ops).outcome = some o := by
    intro ops
    induction ops with
    | nil => intro d hd; exact hd
    | cons op ops ih =>
        intro d hd
        have hop : (d.applyOp op).outcome = some o := by
          cases op <;>
            simp [Deferred.applyOp, Deferred.resolve, Deferred.reject, hd]
        simp only [Deferred.runOps]
        exact ih _ hop
  exact ⟨main ops d h, fun e => rfl, rfl⟩

/-- Witness for deferred_settles_once_flags_unguarded: a settled Deferred
survives a reject-then-resolve barrage with its outcome intact. -/
theorem deferred_settles_once_flags_unguarded_witness :
    ((Deferred.new.resolve).runOps [DOp.rej "x", DOp.res]).outcome
        = some (Except.ok ())
    ∧ (∀ e, ((Deferred.new.resolve).reject e).isRejected = true)
    ∧ ((Deferred.new.resolve).resolve).isResolved = true :=
  deferred_settles_once_flags_unguarded (Deferred.new.resolve)
    (Except.ok ()) [DOp.rej "x", DOp.res] rfl

/-- C3 counterexample: two successive cancel calls on a fresh spin state.
The first call puts one cleanup write in the sink, the second call writes
the cleanup sequence again, so after two calls the sink holds it twice. -/
theorem cancel_twice_reemits_cleanup_cex :
    ((cancelRun (spinInit (some 500))).1).sink.count Ev.cleanup = 1
    ∧ ((cancelRun ((cancelRun (spinInit (some 500))).1)).1).sink.count
        Ev.cleanup = 2 := by
  decide

/-- C3 (amended): calling stop twice in sequence does yield the same
outcome both times, since the second resolve leaves the settled signal
unchanged, but each call appends its own cleanup write to the sink: two
calls emit the cleanup sequence twice. -/
theorem cancel_idempotent_outcome_cleanup_per_call (s : SpinState) :
    cancelOutcome ((cancelRun s).1) = cancelOutcome s
    ∧ ((cancelRun ((cancelRun s).1)).1).sink.count Ev.cleanup
        = s.sink.count Ev.cleanup + 2 := by
  constructor
  · cases h : s.done.outcome <;>
      simp [cancelOutcome, cancelRun, Deferred.resolve, h]
  · simp [cancelRun, List.count_append]

/-- Witness for cancel_idempotent_outcome_cleanup_per_call on a fresh
spin state. -/
theorem cancel_idempotent_outcome_cleanup_per_call_witness :
    cancelOutcome ((cancelRun (spinInit none)).1) = cancelOutcome (spinInit none)
    ∧ ((cancelRun ((cancelRun (spinInit none)).1)).1).sink.count Ev.cleanup
        = (spinInit none).sink.count Ev.cleanup + 2 :=
  cancel_idempotent_outcome_cleanup_per_call (spinInit none)

/-- C6: a cancel call runs, in order: set the cancelled flag, write the
cleanup bytes (cursor left, blank space, cursor left, show cursor —
byte-for-byte 1b 5b 31 44 20 1b 5b 31 44 1b 5b 3f 32 35 68), resolve the
Completion Signal, then await its outcome as its final action; the state
after the call has the flag set, exactly one cleanup write appended, and
a fulfilled signal when it was pending. -/
theorem cancel_sequence_spec (s : SpinState) :
    (cancelRun s).2
      = [CancelAct.setFlag,
         CancelAct.writeSink
           [0x1b, 0x5b, 0x31, 0x44, 0x20, 0x1b, 0x5b, 0x31, 0x44,
            0x1b, 0x5b, 0x3f, 0x32, 0x35, 0x68],
         CancelAct.resolveDone, CancelAct.awaitDone]
    ∧ ((cancelRun s).1).cancelled = true
    ∧ ((cancelRun s).1).sink = s.sink ++ [Ev.cleanup]
    ∧ bytesOf Ev.cleanup
      = [0x1b, 0x5b, 0x31, 0x44, 0x20, 0x1b, 0x5b, 0x31, 0x44,
         0x1b, 0x5b, 0x3f, 0x32, 0x35, 0x68]
    ∧ ((cancelRun s).1).done.isResolved = true
    ∧ (s.done.outcome = none →
        ((cancelRun s).1).done.outcome = some (Except.ok ())) := by
  refine ⟨by simp only [cancelRun]; decide, rfl, rfl, by decide, rfl, ?_⟩
  intro h
  simp [cancelRun, Deferred.resolve, h]

/-- Witness for cancel_sequence_spec on a fresh spin state, whose signal
is still pending. -/
theorem cancel_sequence_spec_witness :
    ((cancelRun (spinInit (some 500))).1).cancelled = true
    ∧ ((cancelRun (spinInit (some 500))).1).done.outcome
        = some (Except.ok ()) :=
  ⟨(cancel_sequence_spec (spinInit (some 500))).2.1,
   (cancel_sequence_spec (spinInit (some 500))).2.2.2.2.2 rfl⟩

/-- C7: the frame source holds exactly 256 frames, frame i carrying the
code point 0x2800 + i (the contiguous braille block in ascending order),
and frame i's bytes are exactly the cursor-left sequence ESC [ 1 D
followed by the UTF-8 encoding of that code point. -/
theorem braille_frames_spec (i : Nat) (h : i < 256) :
    ALL_BRAILLE_FRAMES.length = 256
    ∧ ALL_BRAILLE_CHARS.getD i 0 = 0x2800 + i
    ∧ ALL_BRAILLE_FRAMES.getD i []
        = [0x1b, 0x5b, 0x31, 0x44] ++ utf8Encode (0x2800 + i) := by
  refine ⟨by decide, ?_, ?_⟩
  · simp [ALL_BRAILLE_CHARS, List.getD_eq_getElem?_getD,
      List.getElem?_map, List.getElem?_range, h]
  · have hfr : ALL_BRAILLE_FRAMES
        = (List.range 256).map
            (fun j => [0x1b, 0x5b, 0x31, 0x44] ++ utf8Encode (0x2800 + j)) := by
      decide
    rw [hfr]
    simp [List.getD_eq_getElem?_getD, List.getElem?_map, List.getElem?_range, h]

/-- Witness for braille_frames_spec at the last frame. -/
theorem braille_frames_spec_witness :
    ALL_BRAILLE_FRAMES.length = 256
    ∧ ALL_BRAILLE_CHARS.getD 255 0 = 0x2800 + 255
    ∧ ALL_BRAILLE_FRAMES.getD 255 []
        = [0x1b, 0x5b, 0x31, 0x44] ++ utf8Encode (0x2800 + 255) :=
  braille_frames_spec 255 (by decide)

/-- C8: whatever the try block of main wrote and however it ended,
success or failure, the finally clause writes the show-cursor sequence
ESC [ ? 25 h as the last write on the sink, and the body's outcome is
then propagated unchanged. -/
theorem main_show_cursor_on_every_exit (evs : List Ev) (r : Except String Unit) :
    (mainRun (evs, r)).1.getLast? = some Ev.showCursor
    ∧ Ev.showCursor ∈ (mainRun (evs, r)).1
    ∧ (mainRun (evs, r)).2 = r
    ∧ bytesOf Ev.showCursor = [0x1b, 0x5b, 0x3f, 0x32, 0x35, 0x68] := by
  refine ⟨?_, ?_, rfl, by decide⟩
  · show (Ev.working :: (evs ++ [Ev.showCursor])).getLast? = some Ev.showCursor
    rw [show Ev.working :: (evs ++ [Ev.showCursor])
          = (Ev.working :: evs) ++ [Ev.showCursor] from rfl]
    exact List.getLast?_concat _
  · simp [mainRun, tryFinallyEv]

/-- Witness for main_show_cursor_on_every_exit on a failing body that had
written the hide-cursor sequence and one frame. -/
theorem main_show_cursor_on_every_exit_witness :
    (mainRun ([Ev.hide, Ev.frame 0], Except.error "test")).1.getLast?
        = some Ev.showCursor
    ∧ Ev.showCursor ∈ (mainRun ([Ev.hide, Ev.frame 0], Except.error "test")).1
    ∧ (mainRun ([Ev.hide, Ev.frame 0], Except.error "test")).2
        = Except.error "test"
    ∧ bytesOf Ev.showCursor = [0x1b, 0x5b, 0x3f, 0x32, 0x35, 0x68] :=
  main_show_cursor_on_every_exit [Ev.hide, Ev.frame 0] (Except.error "test")

/-- Single-step facts about the cancelled flag and the frame writes. -/
theorem step_flag_facts (s : SpinState) (l : Label) (t : SpinState)
    (hst : Step s l t) :
    (s.cancelled = true → t.cancelled = true)
    ∧ (l = Label.loopStep → t.cancelled = s.cancelled)
    ∧ (l = Label.cancelStep → t.cancelled = true)
    ∧ (∀ k, s.cancelled = true →
        t.sink.count (Ev.frame k) = s.sink.count (Ev.frame k)) := by
  cases hst with
  | loop hnext =>
      unfold loopNext at hnext
      split at hnext
      · cases hnext
        refine ⟨fun h => h, fun _ => rfl, fun hl => Label.noConfusion hl, ?_⟩
        intro k _
        simp [List.count_append]
      · split at hnext
        · cases hnext
          exact ⟨fun h => h, fun _ => rfl, fun hl => Label.noConfusion hl,
            fun k _ => rfl⟩
        · cases hnext
          refine ⟨fun h => h, fun _ => rfl, fun hl => Label.noConfusion hl, ?_⟩
          intro k hk
          simp_all
      · split at hnext
        · cases hnext
          exact ⟨fun h => h, fun _ => rfl, fun hl => Label.noConfusion hl,
            fun k _ => rfl⟩
        · split at hnext
          · cases hnext
            refine ⟨fun h => h, fun _ => rfl, fun hl => Label.noConfusion hl, ?_⟩
            intro k hk
            simp_all
          · cases hnext
            exact ⟨fun h => h, fun _ => rfl, fun hl => Label.noConfusion hl,
              fun k _ => rfl⟩
      · cases hnext
        exact ⟨fun h => h, fun _ => rfl, fun hl => Label.noConfusion hl,
          fun k _ => rfl⟩
      · cases hnext
        exact ⟨fun h => h, fun _ => rfl, fun hl => Label.noConfusion hl,
          fun k _ => rfl⟩
      · cases hnext
  | cancel =>
      refine ⟨fun _ => rfl, fun hl => Label.noConfusion hl, fun _ => rfl, ?_⟩
      intro k _
      simp [cancelRun, List.count_append]

/-- C5: the cancelled flag never reverts (any step from a cancelled state
stays cancelled), the loop never mutates it, a cancel step sets it, and
no step taken from a cancelled state writes a frame; hence along any
interleaved execution that starts cancelled, no further frame write
occurs.  The per-frame check happens in the same synchronous segment as
the write it guards, so a step writes frame k only from an uncancelled
state. -/
theorem cancelled_flag_discipline :
    (∀ s l t, Step s l t →
       (s.cancelled = true → t.cancelled = true)
       ∧ (l = Label.loopStep → t.cancelled = s.cancelled)
       ∧ (l = Label.cancelStep → t.cancelled = true)
       ∧ (∀ k, s.cancelled = true →
           t.sink.count (Ev.frame k) = s.sink.count (Ev.frame k)))
    ∧ (∀ s t, Relation.ReflTransGen StepAny s t → s.cancelled = true →
        t.cancelled = true
        ∧ ∀ k, t.sink.count (Ev.frame k) = s.sink.count (Ev.frame k)) := by
  refine ⟨step_flag_facts, ?_⟩
  intro s t hrt hs
  induction hrt with
  | refl => exact ⟨hs, fun k => rfl⟩
  | tail hab hbc ih =>
      obtain ⟨hc, hcount⟩ := ih
      obtain ⟨l, hstp⟩ := hbc
      have h1 := step_flag_facts _ _ _ hstp
      exact ⟨h1.1 hc, fun k => (h1.2.2.2 k hc).trans (hcount k)⟩

/-- Witness for cancelled_flag_discipline: a concrete cancel step from an
already-cancelled state keeps the flag and adds no frame write, and the
reflexive execution preserves both. -/
theorem cancelled_flag_discipline_witness :
    ((cancelRun ((cancelRun (spinInit none)).1)).1).cancelled = true
    ∧ ((cancelRun ((cancelRun (spinInit none)).1)).1).sink.count (Ev.frame 0)
        = ((cancelRun (spinInit none)).1).sink.count (Ev.frame 0)
    ∧ ((cancelRun (spinInit none)).1).cancelled = true := by
  have h := cancelled_flag_discipline.1 ((cancelRun (spinInit none)).1)
    Label.cancelStep ((cancelRun ((cancelRun (spinInit none)).1)).1)
    (Step.cancel ((cancelRun (spinInit none)).1))
  have h2 := cancelled_flag_discipline.2 ((cancelRun (spinInit none)).1)
    ((cancelRun (spinInit none)).1) Relation.ReflTransGen.refl (by decide)
  exact ⟨h.1 (by decide), h.2.2.2 0 (by decide), h2.1⟩
